import Mathlib

/-!
Shallow embedding of the command-execution engine of the `rig` repository
(`src/utils/runner.py` and `src/utils/errors.py`), together with theorems
settling the behavioural claims about its retry policy, quiet-flag
normalization, privilege handling and failure classification.

Conventions of the embedding:
* Python lists of strings become `List String`; Python string operations
  (`"x" in s`, `s.lower()`, `" ".join`, `s.startswith`) become the explicit
  character-list functions below.
* The process boundary is an oracle (`Host`): `Host.spawn i c` is the outcome
  of spawning the resolved argument vector `c` on the `i`-th attempt of the
  current `run` call.  Outputs are modelled as already-`rstrip`-ped lines.
* Exceptions become the inductive `PyExc`; raising is `Except.error`.
* Side effects (log writes, console notices, sleeps, process spawns) become an
  explicit event trace so that claims about ordering, attempt counts and
  backoff delays are statable.
* Python's in-place `list.insert` aliasing is modelled by `RunOutput.callerCmd`:
  the contents of the caller's list after the call (a fresh list is created by
  `["sudo"] + command`, so with `sudo=True` the caller's list is never touched;
  without it, the quiet-flag inserts hit the caller's list itself).
-/

namespace Rig

/-- Boolean prefix test on character lists (models Python `str.startswith`). -/
def isPrefixCharsB : List Char → List Char → Bool
  | [], _ => true
  | _ :: _, [] => false
  | a :: as, b :: bs => a == b && isPrefixCharsB as bs

/-- Boolean substring test on character lists (models Python `needle in haystack`). -/
def isInfixCharsB (needle : List Char) : List Char → Bool
  | [] => isPrefixCharsB needle []
  | c :: rest => isPrefixCharsB needle (c :: rest) || isInfixCharsB needle rest

/-- `containsSub needle haystack` models Python `needle in haystack` on strings. -/
def containsSub (needle haystack : String) : Bool :=
  isInfixCharsB needle.data haystack.data

/-- Models Python `str.lower()` (ASCII case folding suffices for the markers used). -/
def lowerStr (s : String) : String :=
  String.mk (s.data.map Char.toLower)

/-- Models Python `s.startswith (p)`. -/
def startsWithB (s p : String) : Bool :=
  isPrefixCharsB p.data s.data

/-- Models Python `" ".join (command)`. -/
def joinSpace : List String → String
  | [] => ""
  | [s] => s
  | s :: rest => s ++ " " ++ joinSpace rest

/-- Models Python `"\n".join (lines)`. -/
def joinLines : List String → String
  | [] => ""
  | [s] => s
  | s :: rest => s ++ "\n" ++ joinLines rest

/-- The exceptions that flow through `CommandRunner.run` / `retry_on_network_error`
(`src/utils/runner.py`, `src/utils/errors.py`).  `calledProcessError` carries
`returncode`, `stdout`/`output` and `stderr` exactly as `subprocess.CalledProcessError`
does; the custom `rig` exceptions carry the context their constructors store. -/
inductive PyExc where
  | calledProcessError (returncode : Int) (stdout : Option String) (stderr : Option String)
  | fileNotFoundError
  | osError
  | timeoutExpired
  | networkError (message : String) (url : Option String)
  | permissionError (message : String) (command : String)
  | packageManagerError (message : String)
  | commandNotFoundError (command : String)
  | runtimeError (message : String)
  | indexError
  deriving DecidableEq

/-- The typed error taxonomy of `src/utils/errors.py` (subclasses of `RigError`). -/
def isTaxonomyError : PyExc → Bool
  | .networkError _ _ => true
  | .permissionError _ _ => true
  | .packageManagerError _ => true
  | .commandNotFoundError _ => true
  | _ => false

/-- Outcome of one attempt to spawn a process: it either ran to completion with
an exit code and output lines, or spawning raised `FileNotFoundError`, or some
other `OSError`. -/
inductive SpawnOutcome where
  | ran (returncode : Int) (lines : List String)
  | fnf
  | oserr
  deriving DecidableEq

/-- The environment one `run` call executes against: the results of the two sudo
probes and, per attempt index, the outcome of spawning the resolved vector. -/
structure Host where
  sudoAvailable : Bool
  passwordlessSudo : Bool
  spawn : Nat → List String → SpawnOutcome

/-- Models `subprocess.CompletedProcess` as used by `run`. -/
structure Completed where
  args : List String
  returncode : Int
  stdout : Option String
  deriving DecidableEq

/-- The arguments of `CommandRunner.run`. -/
structure RunArgs where
  command : List String
  check : Bool := true
  capture_output : Bool := false
  useSudo : Bool := false  -- the source parameter is called sudo, a reserved word here
  description : Option String := none

/-- Observable side effects of one `run` call, in order. -/
inductive Event where
  | probeSudo
  | logInfo (msg : String)
  | logError (msg : String)
  | consoleNotice
  | spawnTarget (cmd : List String)
  | sleep (seconds : Nat)
  deriving DecidableEq

/-- What one `run` call produces: its event trace, its result (`Except` models
return vs. raise; the `Option` is the decorator's implicit `None` return), and
the contents of the caller's argument list after the call. -/
structure RunOutput where
  trace : List Event
  result : Except PyExc (Option Completed)
  callerCmd : List String

/-- The fixed network markers of `CommandRunner._is_network_command`. -/
def networkIndicators : List String :=
  ["curl", "wget", "apt update", "apt-get update"]

/-- `CommandRunner._is_network_command`: the lowercased space-joined vector
contains one of the markers. -/
def is_network_command (command : List String) : Bool :=
  networkIndicators.any fun p => containsSub p (lowerStr (joinSpace command))

/-- Which exceptions the retry decorator's `except (CalledProcessError,
NetworkError, OSError)` clause catches.  `FileNotFoundError` is an `OSError`
subclass, so it is caught. -/
def retryCaught : PyExc → Bool
  | .calledProcessError _ _ _ => true
  | .networkError _ _ => true
  | .fileNotFoundError => true
  | .osError => true
  | _ => false

/-- The decorator's `isinstance (e, (CommandNotFoundError, PermissionError))`
no-retry guard.  It tests the custom `rig` exception classes (the imported
`PermissionError` shadows the builtin), which are never among the caught types,
so at runtime this guard can never fire. -/
def noRetryGuard : PyExc → Bool
  | .commandNotFoundError _ => true
  | .permissionError _ _ => true
  | _ => false

/-- The loop body of `retry_on_network_error`'s wrapper, with the fuel argument
standing for the remaining iterations of `for attempt in range (max_attempts)`.
On a caught, unguarded failure before the last attempt it prints a retry notice,
sleeps `backoff * 2 ^ attempt` seconds and continues; the last attempt's
exception is re-raised.  `Except.ok none` is the wrapper's implicit `None`
return (reachable only with `maxAttempts = 0`). -/
def retryGo (body : Nat → List Event × Except PyExc Completed)
    (backoff maxAttempts : Nat) : Nat → Nat → List Event × Except PyExc (Option Completed)
  | _, 0 => ([], Except.ok none)
  | attempt, fuel + 1 =>
    match body attempt with
    | (ev, Except.ok c) => (ev, Except.ok (some c))
    | (ev, Except.error e) =>
      if retryCaught e then
        if noRetryGuard e then (ev, Except.error e)
        else if attempt = maxAttempts - 1 then (ev, Except.error e)
        else
          let rest := retryGo body backoff maxAttempts (attempt + 1) fuel
          (ev ++ Event.consoleNotice :: Event.sleep (backoff * 2 ^ attempt) :: rest.1, rest.2)
      else (ev, Except.error e)

/-- The apt-position check of `run` (lines 188–192): `command[0] == "apt"` raises
`IndexError` on an empty vector; otherwise apt is looked for at index 0, then at
index 1 when the vector is long enough. -/
def aptIdxE : List String → Except Unit (Option Nat)
  | [] => Except.error ()
  | [c0] => Except.ok (if c0 = "apt" then some 0 else none)
  | c0 :: c1 :: _ =>
    Except.ok (if c0 = "apt" then some 0 else if c1 = "apt" then some 1 else none)

/-- Number of leading elements starting with `"-"`: the `while option_idx <
len (command) and command[option_idx].startswith ("-")` scan, applied to the
suffix after the apt token. -/
def countFlagsFrom : List String → Nat
  | [] => 0
  | x :: xs => if startsWithB x "-" then countFlagsFrom xs + 1 else 0

/-- The `-qq` injection of `run` (lines 199–206): if no quiet flag is present,
insert `-qq` right after the apt token for `update` invocations, or right after
the `install` token for `install` invocations. -/
def injectQuiet (command : List String) (apt_idx : Nat) : List String :=
  if "-q" ∈ command ∨ "-qq" ∈ command ∨ "-qqq" ∈ command then command
  else if "update" ∈ command then command.insertIdx (apt_idx + 1) "-qq"
  else if "install" ∈ command then
    command.insertIdx (command.indexOf "install" + 1) "-qq"
  else command

/-- The `-o APT::Status-Fd=/dev/null` injection of `run` (lines 209–216): if no
`-o` is present, skip past the flags following the apt token and insert the two
option tokens there. -/
def injectStatusFd (command : List String) (apt_idx : Nat) : List String :=
  if "-o" ∈ command then command
  else
    let option_idx := apt_idx + 1 + countFlagsFrom (command.drop (apt_idx + 1))
    (command.insertIdx option_idx "-o").insertIdx (option_idx + 1) "APT::Status-Fd=/dev/null"

/-- The apt position as `run` uses it after the `IndexError`-raising check
succeeded (`None` also when the vector was empty, where `run` has already
raised). -/
def aptIdxOpt (command : List String) : Option Nat :=
  match aptIdxE command with
  | Except.ok o => o
  | Except.error _ => none

/-- Both injections of the quiet-mode normalization block, applied when apt was
found, in source order (`-qq` first, then the `-o` option pair). -/
def applyAptNormalize (command : List String) : Option Nat → List String
  | some i => injectStatusFd (injectQuiet command i) i
  | none => command

/-- The whole quiet-mode normalization block of `run` (lines 186–216) as a pure
function on the vector: identity when apt is not at position 0/1, otherwise the
two injections in source order. -/
def normalizeVector (command : List String) : List String :=
  applyAptNormalize command (aptIdxOpt command)

/-- `next ((arg for arg in command if arg.startswith (('http://', 'https://'))), None)`. -/
def firstUrl (command : List String) : Option String :=
  command.find? fun a => startsWithB a "http://" || startsWithB a "https://"

/-- The benign warning filtered out of elevated apt output (line 267). -/
def aptWarningLine (line : String) : Bool :=
  containsSub "apt does not have a stable cli interface" (lowerStr line)

/-- The error/warning markers echoed to the console (line 274). -/
def errorMarkerLine (line : String) : Bool :=
  ["error", "failed", "warning", "cannot", "unable", "e:"].any
    fun w => containsSub w (lowerStr line)

/-- The lines kept by the elevated-apt reader thread: non-empty and not the
benign CLI-interface warning. -/
def keepLines (lines : List String) : List String :=
  lines.filter fun l => l ≠ "" && !aptWarningLine l

/-- One `subprocess.run` call on a spawn outcome: with `check` a non-zero exit
raises `CalledProcessError` whose `output` is the captured merged stream (or
`None` without capture) and whose `stderr` is always `None` (stderr is merged
into stdout on every capturing path of this file). -/
def outcomeRes (command : List String) (check capture : Bool) :
    SpawnOutcome → Except PyExc Completed
  | SpawnOutcome.ran rc lines =>
    if check ∧ rc ≠ 0 then
      Except.error (PyExc.calledProcessError rc
        (if capture then some (joinLines lines) else none) none)
    else Except.ok ⟨command, rc, if capture then some (joinLines lines) else none⟩
  | SpawnOutcome.fnf => Except.error PyExc.fileNotFoundError
  | SpawnOutcome.oserr => Except.error PyExc.osError

/-- One attempt of `CommandRunner._run_with_retry` (or of a direct
`subprocess.run`): spawn the vector and interpret the outcome. -/
def bodyOnce (h : Host) (command : List String) (check capture : Bool) (i : Nat) :
    List Event × Except PyExc Completed :=
  ([Event.spawnTarget command], outcomeRes command check capture (h.spawn i command))

/-- Lift a single non-retried attempt to the retry-wrapper's result shape. -/
def singleAttempt (h : Host) (command : List String) (check capture : Bool) :
    List Event × Except PyExc (Option Completed) :=
  let r := bodyOnce h command check capture 0
  (r.1, r.2.map some)

/-- The elevated-apt `Popen` streaming path (lines 244–301): one spawn, each
kept output line logged, each error-marker line echoed to the console, and on a
non-zero exit with `check` a `CalledProcessError` built with the accumulated
output as its third positional argument (so `e.stdout`, not `e.stderr`). -/
def popenPath (h : Host) (command : List String) (check : Bool) :
    List Event × Except PyExc (Option Completed) :=
  match h.spawn 0 command with
  | SpawnOutcome.ran rc lines =>
    let kept := keepLines lines
    let ev := Event.spawnTarget command :: kept.map Event.logInfo
      ++ (kept.filter errorMarkerLine).map (fun _ => Event.consoleNotice)
    if check ∧ rc ≠ 0 then
      (ev, Except.error (PyExc.calledProcessError rc (some (joinLines kept)) none))
    else (ev, Except.ok (some ⟨command, rc, some (joinLines kept)⟩))
  | SpawnOutcome.fnf => ([Event.spawnTarget command], Except.error PyExc.fileNotFoundError)
  | SpawnOutcome.oserr => ([Event.spawnTarget command], Except.error PyExc.osError)

/-- The `try` block of `run` (lines 239–353): the I/O-strategy selection and,
on the non-elevated-apt paths, the network-classification test choosing between
`_run_with_retry` (3 attempts, backoff base 1) and a single `subprocess.run`. -/
def runBody (h : Host) (command : List String) (check capture useSudo is_apt : Bool) :
    List Event × Except PyExc (Option Completed) :=
  if useSudo ∧ ¬ capture then
    if is_apt then popenPath h command check
    else if is_network_command command then
      retryGo (bodyOnce h command check false) 1 3 0 3
    else singleAttempt h command check false
  else if capture then
    if is_network_command command then
      retryGo (bodyOnce h command check true) 1 3 0 3
    else singleAttempt h command check true
  else
    if is_network_command command then
      retryGo (bodyOnce h command check false) 1 3 0 3
    else singleAttempt h command check false

/-- The `except` clauses of `run` (lines 354–396) in source order, producing the
exception finally raised and the log events the handler emits.  The lock test
reads `e.stderr`, which is `None` on every path of this file. -/
def classifyExc (command : List String) (cmd_str : String) (useSudo : Bool) :
    PyExc → PyExc × List Event
  | PyExc.timeoutExpired =>
    if is_network_command command then
      (PyExc.networkError ("Network request timed out: " ++ cmd_str) (firstUrl command), [])
    else
      (PyExc.runtimeError ("Command timed out: " ++ cmd_str),
        [Event.logError ("Command timed out: " ++ cmd_str)])
  | PyExc.calledProcessError rc out err =>
    if is_network_command command then
      (PyExc.networkError
        ("Network request failed: " ++ cmd_str ++ " (exit code: " ++ toString rc ++ ")")
        (firstUrl command), [])
    else if useSudo ∧ rc = 1 then
      (PyExc.permissionError ("Permission denied running: " ++ cmd_str) cmd_str, [])
    else if containsSub "apt" (lowerStr cmd_str) ∧ containsSub "lock" (lowerStr (err.getD "")) then
      (PyExc.packageManagerError ("Package manager is locked: " ++ cmd_str), [])
    else
      let msg := "Command failed: " ++ cmd_str ++ "\nExit code: " ++ toString rc
      let msg := msg ++ (match out with
        | some s => if s ≠ "" then "\nOutput: " ++ s else ""
        | none => "")
      let msg := msg ++ (match err with
        | some s => if s ≠ "" then "\nStderr: " ++ s else ""
        | none => "")
      (PyExc.calledProcessError rc out err, [Event.logError msg])
  | PyExc.fileNotFoundError => (PyExc.commandNotFoundError (command.headD ""), [])
  | e =>
    (e, [Event.logError ("Unexpected error running command: " ++ cmd_str)])

/-- The message of the fatal `RuntimeError` raised when elevation is required
but unavailable (lines 164–167). -/
def sudoUnavailableMsg : String :=
  "sudo is required but not available or not configured. Please ensure sudo is installed and you have the necessary permissions."

/-- `CommandRunner.run`, end to end: elevation resolution (with its probe spawns
and password notice), the apt-position check (raising `IndexError` on an empty
vector before anything is logged or spawned), quiet-mode normalization (mutating
the caller's list exactly when no fresh `["sudo"] + command` list was made), the
`CMD:` log line, the I/O-strategy body, and failure classification. -/
def run (h : Host) (a : RunArgs) : RunOutput :=
  if a.useSudo ∧ ¬ h.sudoAvailable then
    { trace := [Event.probeSudo]
      result := Except.error (PyExc.runtimeError sudoUnavailableMsg)
      callerCmd := a.command }
  else
    let preEv : List Event :=
      if a.useSudo then
        [Event.probeSudo, Event.probeSudo]
          ++ (if h.passwordlessSudo then [] else [Event.consoleNotice, Event.consoleNotice])
      else []
    let command0 := if a.useSudo then "sudo" :: a.command else a.command
    match aptIdxE command0 with
    | Except.error _ =>
      { trace := preEv, result := Except.error PyExc.indexError, callerCmd := a.command }
    | Except.ok idx? =>
      let command := applyAptNormalize command0 idx?
      let cmd_str := joinSpace command
      let descEv : List Event := if a.description.isSome then [Event.consoleNotice] else []
      let body := runBody h command a.check a.capture_output a.useSudo idx?.isSome
      { trace :=
          preEv ++ Event.logInfo ("CMD: " ++ cmd_str) :: descEv ++ body.1
            ++ (match body.2 with
                | Except.ok _ => []
                | Except.error e => (classifyExc command cmd_str a.useSudo e).2)
        result :=
          match body.2 with
          | Except.ok r => Except.ok r
          | Except.error e => Except.error (classifyExc command cmd_str a.useSudo e).1
        callerCmd := if a.useSudo then a.command else command }

/-- Number of target-process spawns recorded in a trace. -/
def spawnCount (t : List Event) : Nat :=
  (t.filter fun e => match e with | Event.spawnTarget _ => true | _ => false).length

/-- The backoff sleeps recorded in a trace, in order. -/
def sleepsOf (t : List Event) : List Nat :=
  t.filterMap fun e => match e with | Event.sleep n => some n | _ => none

/-- The argument vector `run` actually executes: the elevation prefix (when
requested) followed by quiet-mode normalization. -/
def resolvedVector (a : RunArgs) : List String :=
  normalizeVector (if a.useSudo then "sudo" :: a.command else a.command)

deriving instance DecidableEq for Except

/-! Concrete hosts used to evaluate the model at specific scenarios. -/

/-- Every spawn runs and exits 1 with no output. -/
def alwaysExit1 : Host := ⟨true, true, fun _ _ => SpawnOutcome.ran 1 []⟩

/-- Every spawn runs and exits 6 (curl's DNS-failure code) with no output. -/
def alwaysExit6 : Host := ⟨true, true, fun _ _ => SpawnOutcome.ran 6 []⟩

/-- Every spawn raises `FileNotFoundError` (the binary is missing). -/
def alwaysMissing : Host := ⟨true, true, fun _ _ => SpawnOutcome.fnf⟩

/-- Every spawn runs and exits 0 with no output; passwordless sudo. -/
def alwaysOk : Host := ⟨true, true, fun _ _ => SpawnOutcome.ran 0 []⟩

/-- Every spawn exits 100 printing a dpkg lock error line. -/
def lockedHost : Host :=
  ⟨true, true, fun _ _ => SpawnOutcome.ran 100 ["E: Could not get lock /var/lib/dpkg/lock-frontend"]⟩

/-- A host with no working sudo at all. -/
def noSudoHost : Host := ⟨false, false, fun _ _ => SpawnOutcome.ran 0 []⟩

/-- Every spawn raises a plain `OSError`. -/
def alwaysOsErr : Host := ⟨true, true, fun _ _ => SpawnOutcome.oserr⟩

/-! Counting and decomposition lemmas for traces, and unfolding lemmas for the
retry loop, the normalization injections and `run` itself. -/

@[simp] theorem spawnCount_nil : spawnCount [] = 0 := rfl

@[simp] theorem spawnCount_probe (t : List Event) :
    spawnCount (Event.probeSudo :: t) = spawnCount t := rfl

@[simp] theorem spawnCount_logInfo (m : String) (t : List Event) :
    spawnCount (Event.logInfo m :: t) = spawnCount t := rfl

@[simp] theorem spawnCount_logError (m : String) (t : List Event) :
    spawnCount (Event.logError m :: t) = spawnCount t := rfl

@[simp] theorem spawnCount_notice (t : List Event) :
    spawnCount (Event.consoleNotice :: t) = spawnCount t := rfl

@[simp] theorem spawnCount_sleepEvt (n : Nat) (t : List Event) :
    spawnCount (Event.sleep n :: t) = spawnCount t := rfl

@[simp] theorem spawnCount_spawn (c : List String) (t : List Event) :
    spawnCount (Event.spawnTarget c :: t) = spawnCount t + 1 := rfl

@[simp] theorem spawnCount_append (s t : List Event) :
    spawnCount (s ++ t) = spawnCount s + spawnCount t := by
  simp [spawnCount, List.filter_append]

@[simp] theorem sleepsOf_nil : sleepsOf [] = [] := rfl

@[simp] theorem sleepsOf_probe (t : List Event) :
    sleepsOf (Event.probeSudo :: t) = sleepsOf t := rfl

@[simp] theorem sleepsOf_logInfo (m : String) (t : List Event) :
    sleepsOf (Event.logInfo m :: t) = sleepsOf t := rfl

@[simp] theorem sleepsOf_logError (m : String) (t : List Event) :
    sleepsOf (Event.logError m :: t) = sleepsOf t := rfl

@[simp] theorem sleepsOf_notice (t : List Event) :
    sleepsOf (Event.consoleNotice :: t) = sleepsOf t := rfl

@[simp] theorem sleepsOf_sleepEvt (n : Nat) (t : List Event) :
    sleepsOf (Event.sleep n :: t) = n :: sleepsOf t := rfl

@[simp] theorem sleepsOf_spawn (c : List String) (t : List Event) :
    sleepsOf (Event.spawnTarget c :: t) = sleepsOf t := rfl

@[simp] theorem sleepsOf_append (s t : List Event) :
    sleepsOf (s ++ t) = sleepsOf s ++ sleepsOf t := by
  simp [sleepsOf, List.filterMap_append]

@[simp] theorem classifyExc_spawnCount (c : List String) (s : String) (u : Bool) (e : PyExc) :
    spawnCount (classifyExc c s u e).2 = 0 := by
  cases e <;> simp [classifyExc] <;> split_ifs <;> rfl

@[simp] theorem classifyExc_sleeps (c : List String) (s : String) (u : Bool) (e : PyExc) :
    sleepsOf (classifyExc c s u e).2 = [] := by
  cases e <;> simp [classifyExc] <;> split_ifs <;> rfl

/-- Decomposition of one `run` call that got past elevation resolution and the
apt-position check: its spawn count, its sleeps and its result are those of the
I/O-strategy body, the classifier applied on failure. -/
theorem run_parts (h : Host) (a : RunArgs) (idx? : Option Nat)
    (hav : a.useSudo = true → h.sudoAvailable = true)
    (he : aptIdxE (if a.useSudo then "sudo" :: a.command else a.command) = Except.ok idx?) :
    spawnCount (run h a).trace
        = spawnCount (runBody h
            (applyAptNormalize (if a.useSudo then "sudo" :: a.command else a.command) idx?)
            a.check a.capture_output a.useSudo idx?.isSome).1 ∧
      sleepsOf (run h a).trace
        = sleepsOf (runBody h
            (applyAptNormalize (if a.useSudo then "sudo" :: a.command else a.command) idx?)
            a.check a.capture_output a.useSudo idx?.isSome).1 ∧
      (run h a).result
        = (match (runBody h
              (applyAptNormalize (if a.useSudo then "sudo" :: a.command else a.command) idx?)
              a.check a.capture_output a.useSudo idx?.isSome).2 with
           | Except.ok r => Except.ok r
           | Except.error e =>
             Except.error (classifyExc
               (applyAptNormalize (if a.useSudo then "sudo" :: a.command else a.command) idx?)
               (joinSpace (applyAptNormalize
                 (if a.useSudo then "sudo" :: a.command else a.command) idx?))
               a.useSudo e).1) := by
  obtain ⟨cmd, chk, cap, us, desc⟩ := a
  cases us with
  | true =>
    have hava : h.sudoAvailable = true := hav rfl
    simp only [if_true] at he
    unfold run
    rw [if_neg (by simp [hava])]
    simp only [if_true]
    rw [he]
    cases hb : (runBody h (applyAptNormalize ("sudo" :: cmd) idx?) chk cap true idx?.isSome).2 with
    | ok r => refine ⟨?_, ?_, ?_⟩ <;> simp [hb] <;> split_ifs <;> simp
    | error e => refine ⟨?_, ?_, ?_⟩ <;> simp [hb] <;> split_ifs <;> simp
  | false =>
    simp only [if_false] at he
    unfold run
    rw [if_neg (by simp)]
    simp only [if_false]
    rw [he]
    cases hb : (runBody h (applyAptNormalize cmd idx?) chk cap false idx?.isSome).2 with
    | ok r => refine ⟨?_, ?_, ?_⟩ <;> simp [hb] <;> split_ifs <;> simp
    | error e => refine ⟨?_, ?_, ?_⟩ <;> simp [hb] <;> split_ifs <;> simp

/-- The retry loop on a body whose first three attempts all fail with caught,
unguarded exceptions: three attempts, the 1s and 2s backoff sleeps, and the
third attempt error surfaced. -/
theorem retryGo_three_err (body : Nat → List Event × Except PyExc Completed)
    (e0 e1 e2 : PyExc) (v0 v1 v2 : List Event)
    (h0 : body 0 = (v0, Except.error e0)) (h1 : body 1 = (v1, Except.error e1))
    (h2 : body 2 = (v2, Except.error e2))
    (hc0 : retryCaught e0 = true) (hg0 : noRetryGuard e0 = false)
    (hc1 : retryCaught e1 = true) (hg1 : noRetryGuard e1 = false) :
    retryGo body 1 3 0 3
      = (v0 ++ Event.consoleNotice :: Event.sleep 1
            :: (v1 ++ Event.consoleNotice :: Event.sleep 2 :: v2),
         Except.error e2) := by
  simp [retryGo, h0, h1, h2, hc0, hg0, hc1, hg1]

theorem aptIdxE_ok_of_ne_nil (c : List String) (hne : c ≠ []) :
    ∃ o, aptIdxE c = Except.ok o := by
  match c, hne with
  | [c0], _ => exact ⟨_, rfl⟩
  | c0 :: c1 :: t, _ => exact ⟨_, rfl⟩

theorem normalizeVector_eq_apply (c : List String) (idx? : Option Nat)
    (he : aptIdxE c = Except.ok idx?) :
    normalizeVector c = applyAptNormalize c idx? := by
  simp [normalizeVector, aptIdxOpt, he]

/-- On every path except the elevated-apt streaming one, a network-classified
vector is executed through the retry wrapper. -/
theorem runBody_retry_cases (h : Host) (V : List String) (cap us is_apt : Bool)
    (hnet : is_network_command V = true)
    (hpath : us = false ∨ (us = true ∧ cap = false ∧ is_apt = false) ∨ (us = true ∧ cap = true)) :
    runBody h V true cap us is_apt = retryGo (bodyOnce h V true cap) 1 3 0 3 := by
  unfold runBody
  rcases hpath with h1 | ⟨h1, h2, h3⟩ | ⟨h1, h2⟩
  · subst h1; cases cap <;> simp [hnet]
  · subst h1; subst h2; subst h3; simp [hnet]
  · subst h1; subst h2; simp [hnet]

/-- On every path except the elevated-apt streaming one, a vector that is not
network-classified is executed through a single `subprocess.run` call. -/
theorem runBody_single_cases (h : Host) (V : List String) (cap us is_apt : Bool)
    (hnet : is_network_command V = false)
    (hpath : us = false ∨ (us = true ∧ cap = false ∧ is_apt = false) ∨ (us = true ∧ cap = true)) :
    runBody h V true cap us is_apt = singleAttempt h V true cap := by
  unfold runBody
  rcases hpath with h1 | ⟨h1, h2, h3⟩ | ⟨h1, h2⟩
  · subst h1; cases cap <;> simp [hnet]
  · subst h1; subst h2; subst h3; simp [hnet]
  · subst h1; subst h2; simp [hnet]

@[simp] theorem spawnCount_map_logInfo (l : List String) :
    spawnCount (l.map Event.logInfo) = 0 := by
  induction l with
  | nil => rfl
  | cons x xs ih => simp [ih]

@[simp] theorem spawnCount_replicate_notice (n : Nat) :
    spawnCount (List.replicate n Event.consoleNotice) = 0 := by
  induction n with
  | zero => rfl
  | succ k ih => simp [List.replicate_succ, ih]

/-- The elevated-apt streaming path spawns the target exactly once, whatever the
outcome: it never enters the retry wrapper. -/
theorem popenPath_spawnCount (h : Host) (V : List String) (chk : Bool) :
    spawnCount (popenPath h V chk).1 = 1 := by
  unfold popenPath
  cases h.spawn 0 V with
  | ran rc lines =>
    dsimp only
    split_ifs <;> simp
  | fnf => simp
  | oserr => simp

/-- On every non-streaming path with every attempt exiting non-zero, the number
of target spawns is 3 exactly when the vector is network-classified, else 1. -/
theorem runBody_attempts_nonstreaming (h : Host) (V : List String) (cap us is_apt : Bool)
    (rcf : Nat → Int) (outf : Nat → List String)
    (hpath : us = false ∨ (us = true ∧ cap = false ∧ is_apt = false) ∨ (us = true ∧ cap = true))
    (hspawn : ∀ i, h.spawn i V = SpawnOutcome.ran (rcf i) (outf i))
    (hfail : ∀ i, rcf i ≠ 0) :
    spawnCount (runBody h V true cap us is_apt).1
      = if is_network_command V then 3 else 1 := by
  by_cases hn : is_network_command V
  · rw [runBody_retry_cases h V cap us is_apt hn hpath]
    rw [retryGo_three_err (bodyOnce h V true cap)
      (PyExc.calledProcessError (rcf 0) (if cap then some (joinLines (outf 0)) else none) none)
      (PyExc.calledProcessError (rcf 1) (if cap then some (joinLines (outf 1)) else none) none)
      (PyExc.calledProcessError (rcf 2) (if cap then some (joinLines (outf 2)) else none) none)
      [Event.spawnTarget V] [Event.spawnTarget V] [Event.spawnTarget V]
      (by simp [bodyOnce, hspawn 0, outcomeRes, hfail 0])
      (by simp [bodyOnce, hspawn 1, outcomeRes, hfail 1])
      (by simp [bodyOnce, hspawn 2, outcomeRes, hfail 2])
      rfl rfl rfl rfl]
    simp [hn]
  · rw [runBody_single_cases h V cap us is_apt (by simpa using hn) hpath]
    simp [singleAttempt, bodyOnce, hn]

theorem mem_insertIdx_of_mem {α : Type} (l : List α) (n : Nat) (a x : α) (hx : x ∈ l) :
    x ∈ l.insertIdx n a := by
  by_cases hb : n ≤ l.length
  · exact (List.mem_insertIdx hb).mpr (Or.inr hx)
  · rw [List.insertIdx_of_length_lt _ _ _ (Nat.lt_of_not_le hb)]
    exact hx

theorem eq_or_mem_of_mem_insertIdx {α : Type} {l : List α} {n : Nat} {a x : α}
    (hx : x ∈ l.insertIdx n a) : x = a ∨ x ∈ l := by
  by_cases hb : n ≤ l.length
  · exact (List.mem_insertIdx hb).mp hx
  · rw [List.insertIdx_of_length_lt _ _ _ (Nat.lt_of_not_le hb)] at hx
    exact Or.inr hx

theorem self_mem_insertIdx {α : Type} (l : List α) (n : Nat) (a : α) (hb : n ≤ l.length) :
    a ∈ l.insertIdx n a :=
  (List.mem_insertIdx hb).mpr (Or.inl rfl)

theorem countFlagsFrom_le (l : List String) : countFlagsFrom l ≤ l.length := by
  induction l with
  | nil => simp [countFlagsFrom]
  | cons x xs ih =>
    unfold countFlagsFrom
    split_ifs <;> simp <;> omega

theorem aptIdxE_apt_cons (t : List String) : aptIdxE ("apt" :: t) = Except.ok (some 0) := by
  cases t <;> simp [aptIdxE]

theorem injectQuiet_cons_apt (t : List String) (i : Nat) :
    ∃ u, injectQuiet ("apt" :: t) i = "apt" :: u := by
  unfold injectQuiet
  split_ifs with hq hu hi
  · exact ⟨t, rfl⟩
  · exact ⟨_, List.insertIdx_succ_cons _ _ _ _⟩
  · exact ⟨_, List.insertIdx_succ_cons _ _ _ _⟩
  · exact ⟨t, rfl⟩

theorem injectStatusFd_cons_apt (t : List String) (i : Nat) :
    ∃ u, injectStatusFd ("apt" :: t) i = "apt" :: u := by
  unfold injectStatusFd
  split_ifs with ho
  · exact ⟨t, rfl⟩
  · dsimp only
    have harith : i + 1 + countFlagsFrom (("apt" :: t).drop (i + 1))
        = (i + countFlagsFrom (("apt" :: t).drop (i + 1))) + 1 := by omega
    rw [harith, List.insertIdx_succ_cons, List.insertIdx_succ_cons]
    exact ⟨_, rfl⟩

theorem mem_injectStatusFd_of_mem (l : List String) (i : Nat) (x : String) (hx : x ∈ l) :
    x ∈ injectStatusFd l i := by
  unfold injectStatusFd
  split_ifs with ho
  · exact hx
  · exact mem_insertIdx_of_mem _ _ _ _ (mem_insertIdx_of_mem _ _ _ _ hx)

theorem mem_of_mem_injectStatusFd {l : List String} {i : Nat} {x : String}
    (hx : x ∈ injectStatusFd l i) :
    x = "-o" ∨ x = "APT::Status-Fd=/dev/null" ∨ x ∈ l := by
  unfold injectStatusFd at hx
  split_ifs at hx with ho
  · exact Or.inr (Or.inr hx)
  · rcases eq_or_mem_of_mem_insertIdx hx with h | h
    · exact Or.inr (Or.inl h)
    · rcases eq_or_mem_of_mem_insertIdx h with hh | hh
      · exact Or.inl hh
      · exact Or.inr (Or.inr hh)

theorem o_mem_injectStatusFd (l : List String) (i : Nat)
    (hb : i + 1 + countFlagsFrom (l.drop (i + 1)) ≤ l.length) :
    "-o" ∈ injectStatusFd l i := by
  unfold injectStatusFd
  split_ifs with ho
  · exact ho
  · exact mem_insertIdx_of_mem _ _ _ _ (self_mem_insertIdx _ _ _ hb)

theorem qq_mem_injectQuiet (l : List String) (i : Nat)
    (hq : ¬ ("-q" ∈ l ∨ "-qq" ∈ l ∨ "-qqq" ∈ l))
    (hu : "update" ∈ l ∨ "install" ∈ l) (hb : i + 1 ≤ l.length) :
    "-qq" ∈ injectQuiet l i := by
  unfold injectQuiet
  rw [if_neg hq]
  by_cases hup : "update" ∈ l
  · rw [if_pos hup]
    exact self_mem_insertIdx _ _ _ hb
  · rw [if_neg hup, if_pos (hu.resolve_left hup)]
    refine self_mem_insertIdx _ _ _ ?_
    have := List.indexOf_lt_length.2 (hu.resolve_left hup)
    omega

theorem injectStatusFd_of_mem_o (l : List String) (i : Nat) (ho : "-o" ∈ l) :
    injectStatusFd l i = l := by
  unfold injectStatusFd
  rw [if_pos ho]

theorem injectQuiet_of_quiet (l : List String) (i : Nat)
    (hq : "-q" ∈ l ∨ "-qq" ∈ l ∨ "-qqq" ∈ l) : injectQuiet l i = l := by
  unfold injectQuiet
  rw [if_pos hq]

theorem injectQuiet_of_none (l : List String) (i : Nat)
    (hq : ¬ ("-q" ∈ l ∨ "-qq" ∈ l ∨ "-qqq" ∈ l))
    (hu : "update" ∉ l) (hi : "install" ∉ l) : injectQuiet l i = l := by
  unfold injectQuiet
  rw [if_neg hq, if_neg hu, if_neg hi]

/-- C3: with `requireElevation=true` and no elevation mechanism detected, `run`
fails with the fatal `RuntimeError` (not a taxonomy error, in particular neither
the network nor the permission variant) and the trace contains no target-process
spawn at all. -/
theorem c3_elevation_absent_fails_before_spawn (h : Host) (a : RunArgs)
    (hs : a.useSudo = true) (hna : h.sudoAvailable = false) :
    (run h a).result = Except.error (PyExc.runtimeError sudoUnavailableMsg) ∧
      spawnCount (run h a).trace = 0 ∧
      isTaxonomyError (PyExc.runtimeError sudoUnavailableMsg) = false := by
  unfold run
  simp [hs, hna, spawnCount, isTaxonomyError]

/-- Witness for C3 at a concrete host with no sudo. -/
theorem c3_elevation_absent_fails_before_spawn_witness :
    (run noSudoHost { command := ["apt", "update"], useSudo := true }).result
        = Except.error (PyExc.runtimeError sudoUnavailableMsg) ∧
      spawnCount (run noSudoHost { command := ["apt", "update"], useSudo := true }).trace = 0 ∧
      isTaxonomyError (PyExc.runtimeError sudoUnavailableMsg) = false :=
  c3_elevation_absent_fails_before_spawn noSudoHost
    { command := ["apt", "update"], useSudo := true } rfl rfl

/-- C10: calling `run` with an empty argument vector and `sudo=False` raises an
unhandled `IndexError` from the `command[0]` package-manager position check,
before any log line is written or any process is spawned (the trace is empty),
and this is not a typed taxonomy error. -/
theorem c10_empty_vector_raises_index_error (h : Host) (a : RunArgs)
    (hc : a.command = []) (hs : a.useSudo = false) :
    (run h a).result = Except.error PyExc.indexError ∧
      (run h a).trace = [] ∧
      isTaxonomyError PyExc.indexError = false := by
  unfold run
  simp [hs, hc, aptIdxE, isTaxonomyError]

/-- Witness for C10 at a concrete host. -/
theorem c10_empty_vector_raises_index_error_witness :
    (run alwaysOk { command := [] }).result = Except.error PyExc.indexError ∧
      (run alwaysOk { command := [] }).trace = [] ∧
      isTaxonomyError PyExc.indexError = false :=
  c10_empty_vector_raises_index_error alwaysOk { command := [] } rfl rfl

/-- C8 (amended): with elevation requested the caller's vector is never mutated
(`["sudo"] + command` builds a fresh list and all inserts hit that copy); without
elevation the quiet-flag inserts are applied to the caller's list itself, so
after the call it holds the adjusted vector `normalizeVector command`. -/
theorem c8_amended_caller_vector_mutation (h : Host) (a : RunArgs) :
    (run h a).callerCmd = if a.useSudo then a.command else normalizeVector a.command := by
  obtain ⟨cmd, chk, cap, us, desc⟩ := a
  unfold run
  cases us with
  | true =>
    by_cases hav : h.sudoAvailable
    · cases he : aptIdxE ("sudo" :: cmd) with
      | error u => simp [hav, he]
      | ok idx? => simp [hav, he]
    · simp [hav]
  | false =>
    cases he : aptIdxE cmd with
    | error u => simp [he, normalizeVector, aptIdxOpt, applyAptNormalize]
    | ok idx? => simp [he, normalizeVector, aptIdxOpt]

/-- C8 counterexample: a non-elevated `apt update` call leaves the caller's list
holding the quiet-flag-adjusted vector, not the one the caller passed in. -/
theorem c8_counterexample_caller_list_mutated :
    (run alwaysOk { command := ["apt", "update"] }).callerCmd
        = ["apt", "-qq", "-o", "APT::Status-Fd=/dev/null", "update"] ∧
      (run alwaysOk { command := ["apt", "update"] }).callerCmd ≠ ["apt", "update"] := by
  decide

/-- C1 counterexample: `["apt", "update"]` is network-classified as supplied by
the caller, yet the one `run` call on an always-failing host spawns the target
exactly once (no retry) and surfaces the raw `CalledProcessError` — because the
code consults `_is_network_command` only after the quiet-flag injection, which
destroys the `"apt update"` marker. -/
theorem c1_counterexample_decided_after_injection :
    is_network_command ["apt", "update"] = true ∧
      spawnCount (run alwaysExit1 { command := ["apt", "update"] }).trace = 1 ∧
      (run alwaysExit1 { command := ["apt", "update"] }).result
        = Except.error (PyExc.calledProcessError 1 none none) := by
  decide

/-- C2 counterexample: an elevated package-manager command whose adjusted vector
is still network-classified (quiet flag and `-o` already present) and which
fails transiently is executed exactly once, with no backoff sleeps — the
elevated-apt streaming path never applies the retry policy. -/
theorem c2_counterexample_elevated_apt_not_retried :
    is_network_command
        (normalizeVector ("sudo" :: ["apt", "update", "-q", "-o", "x"])) = true ∧
      spawnCount (run alwaysExit1
        { command := ["apt", "update", "-q", "-o", "x"], useSudo := true }).trace = 1 ∧
      sleepsOf (run alwaysExit1
        { command := ["apt", "update", "-q", "-o", "x"], useSudo := true }).trace = [] := by
  decide

/-- C4 (code bug): an elevated apt command whose output contains a line
mentioning "lock" and which exits non-zero (exit 100) surfaces as the raw,
generic `CalledProcessError` — not as `PackageManagerError` — because the lock
test reads `e.stderr`, which is always `None` (the streaming path passes the
merged output as the `output`/`stdout` argument). -/
theorem c4_lock_output_not_classified_as_locked :
    (run lockedHost { command := ["apt", "install", "vim"], useSudo := true }).result
        = Except.error (PyExc.calledProcessError 100
            (some "E: Could not get lock /var/lib/dpkg/lock-frontend") none) ∧
      containsSub "lock"
        (lowerStr "E: Could not get lock /var/lib/dpkg/lock-frontend") = true ∧
      isTaxonomyError (PyExc.calledProcessError 100
        (some "E: Could not get lock /var/lib/dpkg/lock-frontend") none) = false := by
  decide

/-- C5 (code bug): when the binary of a network-classified command is missing,
the spawn's `FileNotFoundError` is an `OSError`, so the retry decorator retries
it — three spawns with the 1s and 2s backoff sleeps — before `run` finally
converts it to `CommandNotFoundError "curl"`; the no-retry guard tests the
custom exception classes and never fires. -/
theorem c5_missing_network_binary_is_retried :
    (run alwaysMissing { command := ["curl", "-L", "https://example.invalid/x"] }).result
        = Except.error (PyExc.commandNotFoundError "curl") ∧
      spawnCount
        (run alwaysMissing { command := ["curl", "-L", "https://example.invalid/x"] }).trace = 3 ∧
      sleepsOf
        (run alwaysMissing { command := ["curl", "-L", "https://example.invalid/x"] }).trace
        = [1, 2] := by
  decide

/-- C9 counterexample: on a passwordless-sudo host where `sudo apt update`
succeeds, the logged command line is
`CMD: sudo apt -qq -o APT::Status-Fd=/dev/null update`; no logged line begins
with `CMD: sudo apt -qq update`, because the `-o` option pair is inserted after
the flags but before the `update` token. -/
theorem c9_counterexample_log_line_shape :
    Event.logInfo "CMD: sudo apt -qq -o APT::Status-Fd=/dev/null update"
        ∈ (run alwaysOk { command := ["apt", "update"], useSudo := true }).trace ∧
      ((run alwaysOk { command := ["apt", "update"], useSudo := true }).trace.all
        fun e => match e with
          | Event.logInfo m => !startsWithB m "CMD: sudo apt -qq update"
          | _ => true) = true := by
  decide

/-- Claim C1 (amended): whether the command is wrapped in the retry policy is
decided from the adjusted argument vector — after elevation prefixing and
quiet-flag injection — and is stable for the call, except that an elevated
package-manager invocation without explicit capture takes the streaming path
and is executed exactly once regardless of classification.  Formally, for every
`run` call whose every attempt exits non-zero: on the streaming path the target
is spawned once; on every other path it is spawned 3 times exactly when the
adjusted vector is network-classified, and once otherwise. -/
theorem c1_amended_network_decision_from_adjusted_vector (h : Host) (a : RunArgs)
    (rc : Nat → Int) (out : Nat → List String)
    (hchk : a.check = true) (hne : a.command ≠ [])
    (hav : a.useSudo = true → h.sudoAvailable = true)
    (hspawn : ∀ i, h.spawn i (resolvedVector a) = SpawnOutcome.ran (rc i) (out i))
    (hfail : ∀ i, rc i ≠ 0) :
    spawnCount (run h a).trace
      = if a.useSudo = true ∧ a.capture_output = false
            ∧ (aptIdxOpt ("sudo" :: a.command)).isSome = true then 1
        else if is_network_command (resolvedVector a) then 3 else 1 := by
  obtain ⟨cmd, chk, cap, us, desc⟩ := a
  dsimp only [resolvedVector] at hspawn ⊢
  dsimp only at hchk hne hav
  subst hchk
  have hne0 : (if us then "sudo" :: cmd else cmd) ≠ [] := by
    cases us <;> simp [hne]
  obtain ⟨idx?, he⟩ := aptIdxE_ok_of_ne_nil _ hne0
  have hv := normalizeVector_eq_apply _ idx? he
  have hp := run_parts h ⟨cmd, true, cap, us, desc⟩ idx? hav (by simpa using he)
  dsimp only at hp
  rw [← hv] at hp
  rw [hp.1]
  cases us with
  | false =>
    have hcond : ¬ (false = true ∧ cap = false
        ∧ (aptIdxOpt ("sudo" :: cmd)).isSome = true) := by simp
    rw [if_neg hcond]
    exact runBody_attempts_nonstreaming h _ cap false idx?.isSome rc out
      (Or.inl rfl) hspawn hfail
  | true =>
    have haptS : aptIdxOpt ("sudo" :: cmd) = idx? := by
      have he2 : aptIdxE ("sudo" :: cmd) = Except.ok idx? := by simpa using he
      simp [aptIdxOpt, he2]
    cases cap with
    | true =>
      have hcond : ¬ (true = true ∧ true = false
          ∧ (aptIdxOpt ("sudo" :: cmd)).isSome = true) := by simp
      rw [if_neg hcond]
      exact runBody_attempts_nonstreaming h _ true true idx?.isSome rc out
        (Or.inr (Or.inr ⟨rfl, rfl⟩)) hspawn hfail
    | false =>
      cases hap : idx?.isSome with
      | true =>
        have hcond : true = true ∧ false = false
            ∧ (aptIdxOpt ("sudo" :: cmd)).isSome = true := by
          refine ⟨rfl, rfl, ?_⟩
          rw [haptS]
          exact hap
        rw [if_pos hcond]
        have hrb : runBody h (normalizeVector (if true then "sudo" :: cmd else cmd))
            true false true true
            = popenPath h (normalizeVector (if true then "sudo" :: cmd else cmd)) true := by
          unfold runBody
          simp
        rw [hrb]
        exact popenPath_spawnCount h _ true
      | false =>
        have hcond : ¬ (true = true ∧ false = false
            ∧ (aptIdxOpt ("sudo" :: cmd)).isSome = true) := by
          simp [haptS, hap]
        rw [if_neg hcond]
        exact runBody_attempts_nonstreaming h _ false true false rc out
          (Or.inr (Or.inl ⟨rfl, rfl, rfl⟩)) hspawn hfail

/-- Witness for the amended C1 at `["apt", "update"]`: the adjusted vector is no
longer network-classified, so the call spawns the target exactly once. -/
theorem c1_amended_network_decision_from_adjusted_vector_witness :
    spawnCount (run alwaysExit1 { command := ["apt", "update"] }).trace = 1 :=
  (c1_amended_network_decision_from_adjusted_vector alwaysExit1
    { command := ["apt", "update"] } (fun _ => 1) (fun _ => [])
    rfl (by decide) (fun hs => by simp at hs) (fun _ => rfl)
    (fun _ => by show (1 : Int) ≠ 0; decide)).trans
    (by decide)

/-- Claim C2 (amended): outside the elevated-package-manager streaming path, a
command whose resolved vector is network-classified and whose every attempt
fails transiently (non-zero exit, or an OS error other than a missing binary)
gets exactly 3 attempts, sleeps of 1s then 2s between them, and surfaces the
classification of the last attempt's failure. -/
theorem c2_amended_retry_three_attempts_with_backoff (h : Host) (a : RunArgs)
    (hchk : a.check = true) (hne : a.command ≠ [])
    (hav : a.useSudo = true → h.sudoAvailable = true)
    (hpop : a.useSudo = true → a.capture_output = false →
      (aptIdxOpt ("sudo" :: a.command)).isSome = false)
    (hnet : is_network_command (resolvedVector a) = true)
    (htrans : ∀ i, h.spawn i (resolvedVector a) = SpawnOutcome.oserr ∨
      ∃ rci lines, h.spawn i (resolvedVector a) = SpawnOutcome.ran rci lines ∧ rci ≠ 0) :
    spawnCount (run h a).trace = 3 ∧
      sleepsOf (run h a).trace = [1, 2] ∧
      ∃ e2, outcomeRes (resolvedVector a) a.check a.capture_output (h.spawn 2 (resolvedVector a))
          = Except.error e2 ∧
        (run h a).result
          = Except.error (classifyExc (resolvedVector a) (joinSpace (resolvedVector a))
              a.useSudo e2).1 := by
  obtain ⟨cmd, chk, cap, us, desc⟩ := a
  dsimp only [resolvedVector] at hnet htrans ⊢
  dsimp only at hchk hne hav hpop
  subst hchk
  have hne0 : (if us then "sudo" :: cmd else cmd) ≠ [] := by
    cases us <;> simp [hne]
  obtain ⟨idx?, he⟩ := aptIdxE_ok_of_ne_nil _ hne0
  have hv := normalizeVector_eq_apply _ idx? he
  have hp := run_parts h ⟨cmd, true, cap, us, desc⟩ idx? hav (by simpa using he)
  dsimp only at hp
  rw [← hv] at hp
  have hei : ∀ i, ∃ e,
      outcomeRes (normalizeVector (if us then "sudo" :: cmd else cmd)) true cap
          (h.spawn i (normalizeVector (if us then "sudo" :: cmd else cmd))) = Except.error e ∧
        retryCaught e = true ∧ noRetryGuard e = false := by
    intro i
    rcases htrans i with ho | ⟨rci, lines, hr, hrc⟩
    · refine ⟨PyExc.osError, ?_, rfl, rfl⟩
      rw [ho]
      rfl
    · refine ⟨PyExc.calledProcessError rci (if cap then some (joinLines lines) else none) none,
        ?_, rfl, rfl⟩
      rw [hr]
      simp [outcomeRes, hrc]
  obtain ⟨e0, ho0, hc0, hg0⟩ := hei 0
  obtain ⟨e1, ho1, hc1, hg1⟩ := hei 1
  obtain ⟨e2, ho2, hc2, hg2⟩ := hei 2
  have hpath : us = false ∨ (us = true ∧ cap = false ∧ idx?.isSome = false)
      ∨ (us = true ∧ cap = true) := by
    cases us with
    | false => exact Or.inl rfl
    | true =>
      cases cap with
      | false =>
        refine Or.inr (Or.inl ⟨rfl, rfl, ?_⟩)
        have hp0 := hpop rfl rfl
        simp only [if_true] at he
        simpa [aptIdxOpt, he] using hp0
      | true => exact Or.inr (Or.inr ⟨rfl, rfl⟩)
  have hbody := runBody_retry_cases h (normalizeVector (if us then "sudo" :: cmd else cmd))
    cap us idx?.isSome hnet hpath
  have hretry := retryGo_three_err
    (bodyOnce h (normalizeVector (if us then "sudo" :: cmd else cmd)) true cap) e0 e1 e2
    [Event.spawnTarget (normalizeVector (if us then "sudo" :: cmd else cmd))]
    [Event.spawnTarget (normalizeVector (if us then "sudo" :: cmd else cmd))]
    [Event.spawnTarget (normalizeVector (if us then "sudo" :: cmd else cmd))]
    (by simp [bodyOnce, ho0]) (by simp [bodyOnce, ho1]) (by simp [bodyOnce, ho2])
    hc0 hg0 hc1 hg1
  have hfull := hbody.trans hretry
  refine ⟨?_, ?_, e2, ho2, ?_⟩
  · rw [hp.1, hfull]
    simp
  · rw [hp.2.1, hfull]
    simp
  · rw [hp.2.2, hfull]

/-- Witness for the amended C2: a `wget` fetch failing with an OS error on every
attempt is retried through 3 attempts with the 1s and 2s sleeps and the raw
`OSError` of the last attempt is re-raised. -/
theorem c2_amended_retry_three_attempts_with_backoff_witness :
    spawnCount (run alwaysOsErr { command := ["wget", "https://example.invalid/y"] }).trace = 3 ∧
      sleepsOf (run alwaysOsErr { command := ["wget", "https://example.invalid/y"] }).trace
        = [1, 2] ∧
      (run alwaysOsErr { command := ["wget", "https://example.invalid/y"] }).result
        = Except.error PyExc.osError := by
  have h := c2_amended_retry_three_attempts_with_backoff alwaysOsErr
    { command := ["wget", "https://example.invalid/y"] }
    rfl (by decide) (fun hs => by simp at hs) (fun hs _ => by simp at hs)
    (by decide) (fun _ => Or.inl rfl)
  refine ⟨h.1, h.2.1, ?_⟩
  obtain ⟨e2, he2, hres⟩ := h.2.2
  have he2e : PyExc.osError = e2 := by
    injection he2
  rw [hres, ← he2e]
  decide

/-- Claim C6: the quiet-mode normalization step is idempotent on every vector
whose program is the package manager and which contains no existing quiet flag:
applying it twice yields the same vector as applying it once. -/
theorem c6_quiet_normalization_idempotent (rest : List String)
    (h1 : "-q" ∉ ("apt" :: rest)) (h2 : "-qq" ∉ ("apt" :: rest))
    (h3 : "-qqq" ∉ ("apt" :: rest)) :
    normalizeVector (normalizeVector ("apt" :: rest)) = normalizeVector ("apt" :: rest) := by
  have hstep : ∀ l : List String, aptIdxE l = Except.ok (some 0) →
      normalizeVector l = injectStatusFd (injectQuiet l 0) 0 := by
    intro l hl
    simp [normalizeVector, aptIdxOpt, hl, applyAptNormalize]
  have hquiet_c : ¬ ("-q" ∈ ("apt" :: rest) ∨ "-qq" ∈ ("apt" :: rest)
      ∨ "-qqq" ∈ ("apt" :: rest)) := by
    push_neg
    exact ⟨h1, h2, h3⟩
  obtain ⟨t1, ht1⟩ := injectQuiet_cons_apt rest 0
  obtain ⟨t2, ht2⟩ := injectStatusFd_cons_apt t1 0
  have hn2 : injectStatusFd (injectQuiet ("apt" :: rest) 0) 0 = "apt" :: t2 := by
    rw [ht1, ht2]
  have hN1 : normalizeVector ("apt" :: rest) = injectStatusFd (injectQuiet ("apt" :: rest) 0) 0 :=
    hstep _ (aptIdxE_apt_cons rest)
  rw [hN1]
  have haptn2 : aptIdxE (injectStatusFd (injectQuiet ("apt" :: rest) 0) 0)
      = Except.ok (some 0) := by
    rw [hn2]
    exact aptIdxE_apt_cons t2
  rw [hstep _ haptn2]
  have hoi : (0 : Nat) + 1 + countFlagsFrom ((injectQuiet ("apt" :: rest) 0).drop (0 + 1))
      ≤ (injectQuiet ("apt" :: rest) 0).length := by
    rw [ht1]
    have := countFlagsFrom_le t1
    simp only [List.drop_succ_cons, List.drop_zero, List.length_cons]
    omega
  have hOmem : "-o" ∈ injectStatusFd (injectQuiet ("apt" :: rest) 0) 0 :=
    o_mem_injectStatusFd _ _ hoi
  have hfd : injectStatusFd (injectStatusFd (injectQuiet ("apt" :: rest) 0) 0) 0
      = injectStatusFd (injectQuiet ("apt" :: rest) 0) 0 :=
    injectStatusFd_of_mem_o _ _ hOmem
  have hqt : injectQuiet (injectStatusFd (injectQuiet ("apt" :: rest) 0) 0) 0
      = injectStatusFd (injectQuiet ("apt" :: rest) 0) 0 := by
    by_cases hq : "-q" ∈ injectStatusFd (injectQuiet ("apt" :: rest) 0) 0
        ∨ "-qq" ∈ injectStatusFd (injectQuiet ("apt" :: rest) 0) 0
        ∨ "-qqq" ∈ injectStatusFd (injectQuiet ("apt" :: rest) 0) 0
    · exact injectQuiet_of_quiet _ _ hq
    · have hup : "update" ∉ ("apt" :: rest) := by
        intro hu
        exact hq (Or.inr (Or.inl (mem_injectStatusFd_of_mem _ _ _
          (qq_mem_injectQuiet _ _ hquiet_c (Or.inl hu) (by simp)))))
      have hin : "install" ∉ ("apt" :: rest) := by
        intro hi
        exact hq (Or.inr (Or.inl (mem_injectStatusFd_of_mem _ _ _
          (qq_mem_injectQuiet _ _ hquiet_c (Or.inr hi) (by simp)))))
      have hn1id : injectQuiet ("apt" :: rest) 0 = "apt" :: rest :=
        injectQuiet_of_none _ _ hquiet_c hup hin
      have hup2 : "update" ∉ injectStatusFd (injectQuiet ("apt" :: rest) 0) 0 := by
        intro hu2
        rcases mem_of_mem_injectStatusFd hu2 with h | h | h
        · exact absurd h (by decide)
        · exact absurd h (by decide)
        · rw [hn1id] at h
          exact hup h
      have hin2 : "install" ∉ injectStatusFd (injectQuiet ("apt" :: rest) 0) 0 := by
        intro hi2
        rcases mem_of_mem_injectStatusFd hi2 with h | h | h
        · exact absurd h (by decide)
        · exact absurd h (by decide)
        · rw [hn1id] at h
          exact hin h
      exact injectQuiet_of_none _ _ hq hup2 hin2
  rw [hqt, hfd]

/-- Witness for C6 at `["apt", "update"]`. -/
theorem c6_quiet_normalization_idempotent_witness :
    normalizeVector (normalizeVector ["apt", "update"]) = normalizeVector ["apt", "update"] :=
  c6_quiet_normalization_idempotent ["update"] (by decide) (by decide) (by decide)

/-- Claim C7: a network-classified command (non-elevated, non-capturing) whose
every attempt exits non-zero is retried to 3 attempts and then fails with the
`Network` taxonomy error carrying the first argument of the vector that starts
with `http://` or `https://`. -/
theorem c7_network_failure_carries_first_url (h : Host) (a : RunArgs)
    (rc : Nat → Int) (out : Nat → List String)
    (hs : a.useSudo = false) (hcap : a.capture_output = false) (hchk : a.check = true)
    (hne : a.command ≠ [])
    (hnet : is_network_command (normalizeVector a.command) = true)
    (hspawn : ∀ i, h.spawn i (normalizeVector a.command) = SpawnOutcome.ran (rc i) (out i))
    (hfail : ∀ i, rc i ≠ 0) :
    spawnCount (run h a).trace = 3 ∧
      (run h a).result = Except.error (PyExc.networkError
        ("Network request failed: " ++ joinSpace (normalizeVector a.command)
          ++ " (exit code: " ++ toString (rc 2) ++ ")")
        (firstUrl (normalizeVector a.command))) := by
  obtain ⟨cmd, chk, cap, us, desc⟩ := a
  dsimp only at hs hcap hchk hne hnet hspawn hfail ⊢
  subst hs hcap hchk
  obtain ⟨idx?, he⟩ := aptIdxE_ok_of_ne_nil cmd hne
  have hv := normalizeVector_eq_apply cmd idx? he
  have hp := run_parts h ⟨cmd, true, false, false, desc⟩ idx? (by simp) (by simpa using he)
  dsimp only at hp
  simp only [Bool.false_eq_true, if_false, ← hv] at hp
  have hbody : runBody h (normalizeVector cmd) true false false idx?.isSome
      = ([Event.spawnTarget (normalizeVector cmd)] ++ Event.consoleNotice :: Event.sleep 1
            :: ([Event.spawnTarget (normalizeVector cmd)] ++ Event.consoleNotice :: Event.sleep 2
              :: [Event.spawnTarget (normalizeVector cmd)]),
         Except.error (PyExc.calledProcessError (rc 2) none none)) := by
    unfold runBody
    simp only [Bool.false_eq_true, false_and, if_false, ite_false]
    rw [if_pos hnet]
    exact retryGo_three_err (bodyOnce h (normalizeVector cmd) true false)
      (PyExc.calledProcessError (rc 0) none none)
      (PyExc.calledProcessError (rc 1) none none)
      (PyExc.calledProcessError (rc 2) none none)
      _ _ _
      (by simp [bodyOnce, hspawn 0, outcomeRes, hfail 0])
      (by simp [bodyOnce, hspawn 1, outcomeRes, hfail 1])
      (by simp [bodyOnce, hspawn 2, outcomeRes, hfail 2])
      rfl rfl rfl rfl
  constructor
  · rw [hp.1, hbody]
    simp
  · rw [hp.2.2, hbody]
    simp [classifyExc, hnet]

/-- Witness for C7 at the curl scenario of the specification: the surfaced
error is `Network` with `url = "https://example.invalid/x"`. -/
theorem c7_network_failure_carries_first_url_witness :
    spawnCount (run alwaysExit6 { command := ["curl", "-L", "https://example.invalid/x"] }).trace
        = 3 ∧
      (run alwaysExit6 { command := ["curl", "-L", "https://example.invalid/x"] }).result
        = Except.error (PyExc.networkError
            "Network request failed: curl -L https://example.invalid/x (exit code: 6)"
            (some "https://example.invalid/x")) := by
  have h := c7_network_failure_carries_first_url alwaysExit6
    { command := ["curl", "-L", "https://example.invalid/x"] }
    (fun _ => 6) (fun _ => []) rfl rfl rfl (by decide) (by decide)
    (fun _ => rfl) (fun _ => by show (6 : Int) ≠ 0; decide)
  exact ⟨h.1, h.2.trans (by decide)⟩

/-- Claim C9 (amended): for `{program: apt, args: [update]}` with elevation on a
passwordless-sudo host where the resolved command exits 0, `run` returns success
with exit code 0 and logs the line
`CMD: sudo apt -qq -o APT::Status-Fd=/dev/null update` — the quiet flag right
after the package-manager token and the status-suppression option after the
flags but before the `update` token. -/
theorem c9_amended_sudo_apt_update_scenario (h : Host) (lines : List String)
    (hav : h.sudoAvailable = true) (hpw : h.passwordlessSudo = true)
    (hsp : h.spawn 0 ["sudo", "apt", "-qq", "-o", "APT::Status-Fd=/dev/null", "update"]
        = SpawnOutcome.ran 0 lines) :
    (run h { command := ["apt", "update"], useSudo := true }).result
        = Except.ok (some ⟨["sudo", "apt", "-qq", "-o", "APT::Status-Fd=/dev/null", "update"], 0,
            some (joinLines (keepLines lines))⟩) ∧
      Event.logInfo "CMD: sudo apt -qq -o APT::Status-Fd=/dev/null update"
        ∈ (run h { command := ["apt", "update"], useSudo := true }).trace := by
  have he : aptIdxE ["sudo", "apt", "update"] = Except.ok (some 1) := rfl
  have hnorm : applyAptNormalize ["sudo", "apt", "update"] (some 1)
      = ["sudo", "apt", "-qq", "-o", "APT::Status-Fd=/dev/null", "update"] := rfl
  have hcmd : "CMD: " ++ joinSpace ["sudo", "apt", "-qq", "-o", "APT::Status-Fd=/dev/null",
      "update"] = "CMD: sudo apt -qq -o APT::Status-Fd=/dev/null update" := rfl
  constructor <;>
    simp [run, runBody, popenPath, hav, hpw, he, hnorm, hsp, hcmd]

/-- Witness for the amended C9 at a concrete passwordless host. -/
theorem c9_amended_sudo_apt_update_scenario_witness :
    (run alwaysOk { command := ["apt", "update"], useSudo := true }).result
        = Except.ok (some ⟨["sudo", "apt", "-qq", "-o", "APT::Status-Fd=/dev/null", "update"], 0,
            some ""⟩) ∧
      Event.logInfo "CMD: sudo apt -qq -o APT::Status-Fd=/dev/null update"
        ∈ (run alwaysOk { command := ["apt", "update"], useSudo := true }).trace := by
  have h := c9_amended_sudo_apt_update_scenario alwaysOk [] rfl rfl rfl
  exact ⟨h.1.trans (by decide), h.2⟩

end Rig
